import Mathlib

/-!
Verification of the Mosquito thermal-matrix server.

The repository is a small Express application with a single endpoint
`POST /extract-thermal`, present in several near-duplicate revisions:

* `src/unnamed/part_003` (and the first handler of `src/unnamed/part_000`):
  scale validation, sentinel-aware single-pixel mode, sentinel-filtered
  aggregate statistics, optional base64 full-matrix encodings;
* `src/server.js`, first handler: presence-based coordinate gating,
  pixel mode without a sentinel check, statistics with a hard-coded
  plausibility range `-50..150` degrees Celsius;
* `src/server.js`, third handler: percentile-trimmed statistics with a
  plausibility range `-40..150` and an unfiltered `temperaturesC` dump;
* `src/unnamed/part_002`: aggregate statistics over all raw samples plus a
  `pixel` enrichment that stays `null` when coordinates are out of bounds.

JavaScript numbers are modelled as exact rationals (`ℚ`); raw samples are
`Nat` (the decoder contract delivers unsigned 16-bit integers).  Statistics
loops are translated structurally (one recursive function per `for` loop,
`continue` becoming a recursive call that skips the accumulator update).
-/

namespace Mosquito

/-- Decoded thermal matrix, the result of `getTemperatureData(buffer)`:
`width`, `height` and the row-major list of raw `u16` samples
(`index = y*width + x`). -/
structure ThermalMatrix where
  width : Nat
  height : Nat
  data : List Nat
deriving DecidableEq

/-- A string-typed form/query field holding an optional integer, as seen by
the handlers: `missing` is JS `undefined`/`null`, `empty` is `""`, and
`str p` is a nonempty string whose `parseInt(v, 10)` result is `p`
(`none` when `parseInt` yields `NaN`). -/
inductive FormField where
  | missing
  | empty
  | str (parsed : Option Int)
deriving DecidableEq

/-- Result of JS `Number(v)` on a string: `nonFinite` covers `NaN`,
`Infinity` and `-Infinity`; `finite q` is a finite double modelled exactly. -/
inductive JSNumber where
  | nonFinite
  | finite (q : ℚ)
deriving DecidableEq

/-- The `scale` field as received by `parseScale` in `part_000` (and by the
inline check of `part_003`): either not a string at all, or a string
together with whether it trims to `""` and its `Number(v)` value. -/
inductive ScaleField where
  | notString
  | str (trimmedEmpty : Bool) (value : JSNumber)
deriving DecidableEq

/-- Outcome of the lazy `import("dji-thermal-sdk")` plus decode step:
the module may fail to load, otherwise the black-box decoder yields a
`ThermalMatrix`. -/
inductive DecodeOutcome where
  | unavailable
  | decoded (m : ThermalMatrix)
deriving DecidableEq

/-- The `format` field of `part_003` after lowercasing: `"float32"` selects
the float32 encoding, anything else (including absence) the uint16 default. -/
inductive RawFormat where
  | float32
  | int16
deriving DecidableEq

/-- Default scale from `part_000`/`part_003`: `const DEFAULT_SCALE = 0.1`. -/
def DEFAULT_SCALE : ℚ := 1/10

/-- `parseIntOrNull` from `part_000`/`part_003`: `undefined`, `null` and
`""` give `null`; otherwise the `parseInt(v, 10)` result when it is an
integer, `null` when it is `NaN`. -/
def parseIntOrNull : FormField → Option Int
  | .missing => none
  | .empty => none
  | .str p => p

/-- `parseScale` from `part_000` (line 26): a non-string or
whitespace-only string yields the default; otherwise `Number(v)` must be
finite and strictly positive, else `null` (which the handler turns into a
400 error).  `part_003` lines 55-62 inline the same computation. -/
def parseScale : ScaleField → Option ℚ
  | .notString => some DEFAULT_SCALE
  | .str true _ => some DEFAULT_SCALE
  | .str false .nonFinite => none
  | .str false (.finite q) => if q ≤ 0 then none else some q

/-- Presence test used by `server.js` (first handler, lines 28-32):
`typeof xRaw !== "undefined" && xRaw !== ""`. -/
def fieldPresent : FormField → Bool
  | .str _ => true
  | _ => false

/-- The `parseInt(v, 10)` result of a field, `none` when missing/empty or
`NaN`; used by `server.js` after its presence test and by `part_002`. -/
def fieldParse : FormField → Option Int
  | .str p => p
  | _ => none

/-- Request shape for the `part_003` handler (also covering the first
`part_000` handler, whose pixel mode and scale validation are identical):
file presence, the `x`/`y`/`scale` fields, the already-parsed
`include_raw_data` flag (`parseBool`: the string `"true"` case-insensitively,
anything else `false`), the lowercased `format`, and the decoder outcome
for the uploaded bytes. -/
structure Request003 where
  hasFile : Bool
  x : FormField
  y : FormField
  scaleField : ScaleField
  includeRawData : Bool
  format : RawFormat
  decode : DecodeOutcome
deriving DecidableEq

/-- The `stats` block of the `part_003` aggregate response. -/
structure StatsBlock where
  minC : ℚ
  maxC : ℚ
  avgC : ℚ
  samples : Nat
deriving DecidableEq

/-- The optional base64 full-matrix payload of `part_003`
(lines 198-223): float32 Celsius values, or raw uint16 with the scale
communicated alongside. -/
inductive RawPayload where
  | float32 (tempsC : List ℚ)
  | uint16 (raw : List Nat) (scale : ℚ)
deriving DecidableEq

/-- Responses of the `part_003` handler. -/
inductive Result003 where
  | errMissingFile
  | errInvalidScale
  | errDecoderUnavailable
  | errNoThermalData
  | errOutOfBounds (width height : Nat)
  | pixelNoData (x y : Int) (width height : Nat)
  | pixelTemp (temperature : ℚ) (raw : Nat) (scale : ℚ) (x y : Int) (width height : Nat)
  | errNoValidSamples
  | statsOk (width height : Nat) (stats : StatsBlock)
      (minPixel maxPixel : Option (Nat × Nat))
      (sampleTempsC : List ℚ) (rawPayload : Option RawPayload)
deriving DecidableEq

/-- Accumulator of the statistics loop of `part_003` (lines 131-143):
`minRaw` starts at `Infinity` (modelled `none`), `maxRaw` at `-Infinity`
(modelled `none`), `sumRaw` at `0`, `count` at `0`. -/
structure Acc003 where
  minRaw : Option ℚ
  maxRaw : Option ℚ
  sumRaw : ℚ
  count : Nat
deriving DecidableEq

/-- One non-sentinel iteration of the `part_003` statistics loop:
`if (raw < minRaw) minRaw = raw; if (raw > maxRaw) maxRaw = raw;
sumRaw += raw; count++` (any value is below `Infinity` and above
`-Infinity`, so `none` is always replaced). -/
def step003 (acc : Acc003) (raw : Nat) : Acc003 :=
  ⟨(match acc.minRaw with
    | none => some (raw : ℚ)
    | some m => if (raw : ℚ) < m then some (raw : ℚ) else some m),
   (match acc.maxRaw with
    | none => some (raw : ℚ)
    | some m => if (raw : ℚ) > m then some (raw : ℚ) else some m),
   acc.sumRaw + (raw : ℚ),
   acc.count + 1⟩

/-- The statistics loop of `part_003` lines 136-143: sentinel samples
(`raw === 0 || raw === 65535`) are skipped via `continue` (the
`!Number.isFinite(raw)` guard is vacuous for `Nat` samples). -/
def statsLoop003 (acc : Acc003) : List Nat → Acc003
  | [] => acc
  | raw :: rest =>
    if raw == 0 || raw == 65535 then statsLoop003 acc rest
    else statsLoop003 (step003 acc raw) rest

/-- Construction of the `part_003` `stats` block from the loop accumulator
(lines 151-155, 175-180): `avgRaw = sumRaw / count`, Celsius values by
multiplying with `scale`.  Only used when `count > 0`, so the `getD 0`
defaults are never observed. -/
def mkStats003 (acc : Acc003) (scale : ℚ) : StatsBlock :=
  ⟨acc.minRaw.getD 0 * scale, acc.maxRaw.getD 0 * scale,
   (acc.sumRaw / (acc.count : ℚ)) * scale, acc.count⟩

/-- First row-major index holding a given non-sentinel raw value, as found
by the min/max pixel scan of `part_003` lines 157-166. -/
def firstMatchIdx (data : List Nat) (target : ℚ) : Option Nat :=
  data.findIdx? (fun (v : Nat) => !(v == 0 || v == 65535) && ((v : ℚ) == target))

/-- The `sampleTempsC` debug preview of `part_003` lines 185-194: the first
up to 50 non-sentinel samples converted with `scale`, in input order. -/
def sampleTemps003 (scale : ℚ) : List Nat → Nat → List ℚ
  | [], _ => []
  | raw :: rest, added =>
    if 50 ≤ added then []
    else if raw == 0 || raw == 65535 then sampleTemps003 scale rest added
    else (raw : ℚ) * scale :: sampleTemps003 scale rest (added + 1)

/-- Float32 full-matrix encoding of `part_003` lines 199-206:
`f32[i] = data[i] * scale` (float32 values modelled as exact rationals). -/
def encodeFloat32 (data : List Nat) (scale : ℚ) : List ℚ :=
  data.map (fun (v : Nat) => (v : ℚ) * scale)

/-- Uint16 full-matrix encoding of `part_003` lines 214-221:
`u16[i] = data[i]`, where storing into a `Uint16Array` truncates mod 2^16. -/
def encodeUint16 (data : List Nat) : List Nat :=
  data.map (fun v => v % 65536)

/-- Modelled from the spec: the client-side decoding of the uint16 payload,
`°C = raw * scale`, stated in spec section 8 ("decoding it
(`decoded_raw * scale`)") and in the source comment on
`temperatures_scale` (`part_003` line 220). -/
def decodeUint16 (raw : List Nat) (scale : ℚ) : List ℚ :=
  raw.map (fun (v : Nat) => (v : ℚ) * scale)

/-- Single-pixel mode of `part_003` lines 92-127 (identical in `part_000`
lines 89-122): bounds check echoing `width`/`height`, row-major index
`y*width + x`, sentinel check, otherwise `temperature = raw * scale`. -/
def pixel003 (m : ThermalMatrix) (scale : ℚ) (x y : Int) : Result003 :=
  if x < 0 ∨ (m.width : Int) ≤ x ∨ y < 0 ∨ (m.height : Int) ≤ y then
    .errOutOfBounds m.width m.height
  else
    let raw := m.data.getD (y * (m.width : Int) + x).toNat 0
    if raw == 0 || raw == 65535 then .pixelNoData x y m.width m.height
    else .pixelTemp ((raw : ℚ) * scale) raw scale x y m.width m.height

/-- Aggregate-statistics mode of `part_003` lines 130-225: the filtered
statistics loop, the 500-class "no valid samples" failure, min/max pixel
locations (`x = idx % width`, `y = floor(idx / width)`), the
`sampleTempsC` preview and the optional full-matrix payload. -/
def aggregate003 (m : ThermalMatrix) (scale : ℚ) (includeRawData : Bool)
    (format : RawFormat) : Result003 :=
  let acc := statsLoop003 ⟨none, none, 0, 0⟩ m.data
  if acc.count == 0 then .errNoValidSamples
  else
    .statsOk m.width m.height (mkStats003 acc scale)
      ((firstMatchIdx m.data (acc.minRaw.getD 0)).map
        (fun i => (i % m.width, i / m.width)))
      ((firstMatchIdx m.data (acc.maxRaw.getD 0)).map
        (fun i => (i % m.width, i / m.width)))
      (sampleTemps003 scale m.data 0)
      (if includeRawData then
        some (match format with
          | .float32 => .float32 (encodeFloat32 m.data scale)
          | .int16 => .uint16 (encodeUint16 m.data) scale)
       else none)

/-- The `part_003` handler (`POST /extract-thermal`), in source order:
missing-file check, parameter parsing, scale validation (before the lazy
SDK import), decoder availability, empty-decode check, then single-pixel
mode when both coordinates parsed, else aggregate statistics. -/
def handler003 (req : Request003) : Result003 :=
  if req.hasFile = false then .errMissingFile
  else
    match parseScale req.scaleField with
    | none => .errInvalidScale
    | some scale =>
      match req.decode with
      | .unavailable => .errDecoderUnavailable
      | .decoded m =>
        if m.data.length = 0 then .errNoThermalData
        else
          match parseIntOrNull req.x, parseIntOrNull req.y with
          | some x, some y => pixel003 m scale x y
          | _, _ => aggregate003 m scale req.includeRawData req.format

/-- Request shape shared by the revisions that take only `x`/`y` (plus the
pass-through `emissivity`, which no claim touches): the first `server.js`
handler and the `part_002` handler. -/
structure RequestBasic where
  hasFile : Bool
  x : FormField
  y : FormField
  decode : DecodeOutcome
deriving DecidableEq

/-- The `minC`/`maxC`/`avgC`/`samples`/`sampleTempsC` block produced by the
first `server.js` handler (REŽIM 2). -/
structure PlainCStats where
  minC : ℚ
  maxC : ℚ
  avgC : ℚ
  samples : Nat
  sampleTempsC : List ℚ
deriving DecidableEq

/-- Responses of the first `server.js` handler. -/
inductive ResultServer1 where
  | errMissingFile
  | errInvalidCoordinates
  | errDecoderUnavailable
  | errNoThermalData
  | errOutOfBounds (width height : Nat)
  | errNoValidSamples
  | pixelTemp (temperature : ℚ) (x y : Int)
  | statsOk (width height : Nat) (s : PlainCStats)
deriving DecidableEq

/-- The Celsius-collecting loop of the first `server.js` handler
(lines 106-118): skip sentinels, convert `t = v / 10`, skip temperatures
outside the hard-coded plausibility range `-50..150`. -/
def tempsCLoop : List Nat → List ℚ
  | [] => []
  | v :: rest =>
    if v == 0 || v == 65535 then tempsCLoop rest
    else
      let t : ℚ := (v : ℚ) / 10
      if t < -50 ∨ 150 < t then tempsCLoop rest
      else t :: tempsCLoop rest

/-- Minimum loop `if (t < min) min = t` with `min` starting at `Infinity`
(modelled `none`: any value is below `Infinity`). -/
def minLoop (acc : Option ℚ) : List ℚ → Option ℚ
  | [] => acc
  | t :: rest =>
    minLoop (match acc with
      | none => some t
      | some m => if t < m then some t else some m) rest

/-- Maximum loop `if (t > max) max = t` with `max` starting at
`-Infinity` (modelled `none`). -/
def maxLoop (acc : Option ℚ) : List ℚ → Option ℚ
  | [] => acc
  | t :: rest =>
    maxLoop (match acc with
      | none => some t
      | some m => if t > m then some t else some m) rest

/-- Running-sum loop `sum += t`. -/
def sumLoop (acc : ℚ) : List ℚ → ℚ
  | [] => acc
  | t :: rest => sumLoop (acc + t) rest

/-- Aggregate statistics of the first `server.js` handler (REŽIM 2,
lines 106-150): filtered Celsius list, 500-class failure when it is empty,
min/max/mean and the first up to 50 entries as `sampleTempsC`.  `none`
models the "No valid thermal samples" error. -/
def statsServer1 (data : List Nat) (width height : Nat) : ResultServer1 :=
  let tempsC := tempsCLoop data
  if tempsC.length = 0 then .errNoValidSamples
  else
    .statsOk width height
      ⟨(minLoop none tempsC).getD 0, (maxLoop none tempsC).getD 0,
       sumLoop 0 tempsC / (tempsC.length : ℚ), tempsC.length, tempsC.take 50⟩

/-- The first `server.js` handler (`POST /extract-thermal`): presence-based
`hasCoords`, a 400 "Invalid coordinates" error when a present coordinate
does not parse to an integer, decode, then pixel mode (REŽIM 1, note: no
sentinel check, `temperature = tempRaw / 10`) or the filtered statistics
(REŽIM 2). -/
def handlerServer1 (req : RequestBasic) : ResultServer1 :=
  if req.hasFile = false then .errMissingFile
  else
    let hasCoords := fieldPresent req.x && fieldPresent req.y
    if hasCoords ∧ (fieldParse req.x = none ∨ fieldParse req.y = none) then
      .errInvalidCoordinates
    else
      match req.decode with
      | .unavailable => .errDecoderUnavailable
      | .decoded m =>
        if m.data.length = 0 then .errNoThermalData
        else if hasCoords then
          let x := (fieldParse req.x).getD 0
          let y := (fieldParse req.y).getD 0
          if x < 0 ∨ (m.width : Int) ≤ x ∨ y < 0 ∨ (m.height : Int) ≤ y then
            .errOutOfBounds m.width m.height
          else
            .pixelTemp ((m.data.getD (y * (m.width : Int) + x).toNat 0 : ℚ) / 10) x y
        else statsServer1 m.data m.width m.height

/-- The `pixel` enrichment object of the `part_002` handler. -/
structure PixelInfo where
  x : Int
  y : Int
  tempRaw : Nat
  tempC : ℚ
deriving DecidableEq

/-- Responses of the `part_002` handler.  The `ok` response carries the
unfiltered raw statistics (`minRaw`/`maxRaw` are `getD 0` of the loop
results, observed only with nonempty data), the Celsius variants, the
`sampleTempsC` preview and the optional `pixel` object, which stays `none`
when the coordinates are absent, unparseable or out of bounds. -/
inductive Result002 where
  | errMissingFile
  | errDecoderUnavailable
  | errNoThermalData
  | ok (width height : Nat) (minRaw maxRaw avgRaw : ℚ) (minC maxC avgC : ℚ)
      (sampleTempsC : List ℚ) (pixel : Option PixelInfo)
deriving DecidableEq

/-- The `part_002` handler (`POST /extract-thermal`): global unfiltered
statistics over all raw samples, plus `pixelInfo` computed only when both
coordinates are integers within bounds (lines 72-97); out-of-bounds
coordinates do NOT fail the request — the 200 response simply carries
`pixel: null`. -/
def handler002 (req : RequestBasic) : Result002 :=
  if req.hasFile = false then .errMissingFile
  else
    match req.decode with
    | .unavailable => .errDecoderUnavailable
    | .decoded m =>
      if m.data.length = 0 then .errNoThermalData
      else
        let raws : List ℚ := m.data.map (fun (v : Nat) => (v : ℚ))
        let mn := (minLoop none raws).getD 0
        let mx := (maxLoop none raws).getD 0
        let avg := sumLoop 0 raws / (m.data.length : ℚ)
        let pixel : Option PixelInfo :=
          match fieldParse req.x, fieldParse req.y with
          | some x, some y =>
            if 0 ≤ x ∧ x < (m.width : Int) ∧ 0 ≤ y ∧ y < (m.height : Int) then
              let raw := m.data.getD (y * (m.width : Int) + x).toNat 0
              some ⟨x, y, raw, (raw : ℚ) / 10⟩
            else none
          | _, _ => none
        .ok m.width m.height mn mx avg (mn / 10) (mx / 10) (avg / 10)
          ((m.data.take 50).map (fun (v : Nat) => (v : ℚ) / 10)) pixel

/-- The Celsius-collecting loop of the third `server.js` handler
(`tempsCForStats`, lines 421-433): skip sentinels, convert `t = v / 10`,
skip temperatures outside the plausibility range `-40..150`. -/
def tempsCForStats : List Nat → List ℚ
  | [] => []
  | v :: rest =>
    if v == 0 || v == 65535 then tempsCForStats rest
    else
      let t : ℚ := (v : ℚ) / 10
      if t < -40 ∨ 150 < t then tempsCForStats rest
      else t :: tempsCForStats rest

/-- Nearest-rank percentile index `Math.floor(q * (n - 1))` of the third
`server.js` handler (line 448). -/
def pIdx (q : ℚ) (n : Nat) : Nat :=
  (⌊q * ((n : ℚ) - 1)⌋).toNat

/-- The percentile helper `p(q)` of the third `server.js` handler
(lines 445-450): the single value when `n === 1`, else
`sorted[Math.floor(q * (n - 1))]`. -/
def percentileOf (sorted : List ℚ) (q : ℚ) : ℚ :=
  if sorted.length == 1 then sorted.getD 0 0
  else sorted.getD (pIdx q sorted.length) 0

/-- The trimmed-mean loop of the third `server.js` handler (lines 458-465):
`if (t < minC || t > maxC) continue; sumC += t; count++`. -/
def trimLoop (minC maxC : ℚ) (s : ℚ) (c : Nat) : List ℚ → ℚ × Nat
  | [] => (s, c)
  | t :: rest =>
    if t < minC ∨ maxC < t then trimLoop minC maxC s c rest
    else trimLoop minC maxC (s + t) (c + 1) rest

/-- The `stats` block of the third `server.js` handler together with its
sorted `sampleTempsC` preview (lines 469-481). -/
structure TrimmedStats where
  minC : ℚ
  maxC : ℚ
  avgC : ℚ
  samples : Nat
  usedForAvg : Nat
  sampleTempsC : List ℚ
deriving DecidableEq

/-- Percentile-trimmed aggregate statistics of the third `server.js`
handler (lines 435-481): sort the filtered Celsius values ascending
(`[...arr].sort((a, b) => a - b)`, modelled by insertion sort), take the
5th and 99th nearest-rank percentiles as `minC`/`maxC`, and average the
values within `[minC, maxC]`.  `none` models the 500-class "no valid
samples" error; `usedForAvg ≥ 1` always holds on the `some` branch, so the
rational division `sumC / count` never hits a zero denominator there. -/
def statsTrimmed (data : List Nat) : Option TrimmedStats :=
  let temps := tempsCForStats data
  if temps.length = 0 then none
  else
    let sorted := List.insertionSort (· ≤ ·) temps
    let minC := percentileOf sorted (5/100)
    let maxC := percentileOf sorted (99/100)
    let sc := trimLoop minC maxC 0 0 sorted
    some ⟨minC, maxC, sc.1 / (sc.2 : ℚ), sorted.length, sc.2, sorted.take 50⟩

/-- The unfiltered `include_raw_data=true` full-matrix dump of the third
`server.js` handler (lines 485-491): `Array.from(data, (v) => v / 10)`,
every pixel converted, no sentinel or range filter. -/
def temperaturesCDump (data : List Nat) : List ℚ :=
  data.map (fun (v : Nat) => (v : ℚ) / 10)

/-- Invariant of the `part_003` statistics accumulator: before the first
kept sample both extrema are at their infinities and sum/count are zero;
afterwards `minRaw ≤ maxRaw` and `minRaw * count ≤ sumRaw ≤ maxRaw * count`. -/
def GoodAcc (acc : Acc003) : Prop :=
  match acc.minRaw, acc.maxRaw with
  | some m, some M =>
      m ≤ M ∧ m * (acc.count : ℚ) ≤ acc.sumRaw ∧
        acc.sumRaw ≤ M * (acc.count : ℚ) ∧ 0 < acc.count
  | none, none => acc.count = 0 ∧ acc.sumRaw = 0
  | _, _ => False

end Mosquito

namespace Mosquito

/-- Round-trip helper fact: truncating an in-range sample mod 2^16 is the
identity, so both encodings scale the same raw value. -/
theorem encodeUint16_eq_of_u16 (data : List Nat) (h : ∀ v ∈ data, v < 65536) :
    encodeUint16 data = data := by
  unfold encodeUint16
  induction data with
  | nil => rfl
  | cons v rest ih =>
    have hv : v % 65536 = v := Nat.mod_eq_of_lt (h v (List.mem_cons_self v rest))
    simp only [List.map_cons, hv, List.cons.injEq, true_and]
    exact ih (fun w hw => h w (List.mem_cons_of_mem v hw))

/-- C9: for every sample, decoding the uint16-with-scale full-matrix
encoding (`decoded_raw * scale`) reproduces exactly the Celsius value that
the float32-direct encoding carries (floats are modelled as exact
rationals, so exact equality implies agreement within float32 tolerance);
the decoder contract bounds every raw sample by 2^16. -/
theorem C9_roundtrip (data : List Nat) (scale : ℚ) (h : ∀ v ∈ data, v < 65536) :
    decodeUint16 (encodeUint16 data) scale = encodeFloat32 data scale := by
  rw [encodeUint16_eq_of_u16 data h]
  rfl

theorem C9_roundtrip_witness :
    decodeUint16 (encodeUint16 [100, 0, 200, 65535]) (1/10) =
      encodeFloat32 [100, 0, 200, 65535] (1/10) :=
  C9_roundtrip [100, 0, 200, 65535] (1/10) (by decide)

unseal Rat.mul Rat.add Rat.sub Rat.inv in
/-- C5 counterexample: on the 2×2 matrix `[100, 0, 200, 65535]` the
percentile-trimmed statistics of the third `server.js` handler report
`maxC = 10.0` (index `floor(0.99 * 1) = 0` of the sorted list `[10, 20]`),
not the claimed `20.0`. -/
theorem C5_scenarioA_counterexample :
    (statsTrimmed [100, 0, 200, 65535]).map TrimmedStats.maxC ≠ some 20 := by
  decide

unseal Rat.mul Rat.add Rat.sub Rat.inv in
/-- C5 amended: on the 2×2 matrix `[100, 0, 200, 65535]` with scale `0.1`,
the plain `part_003` aggregate mode returns `samples = 2`, `minC = 10.0`,
`maxC = 20.0`, `avgC = 15.0` (with extremum pixels `(0,0)`/`(0,1)` and
preview `[10, 20]`), while the percentile-trimmed `server.js` variant
returns `minC = maxC = avgC = 10.0` with `samples = 2`. -/
theorem C5_scenarioA_amended :
    handler003 ⟨true, .missing, .missing, .notString, false, .int16,
        .decoded ⟨2, 2, [100, 0, 200, 65535]⟩⟩ =
      .statsOk 2 2 ⟨10, 20, 15, 2⟩ (some (0, 0)) (some (0, 1)) [10, 20] none
    ∧ statsTrimmed [100, 0, 200, 65535] = some ⟨10, 10, 10, 2, 1, [10, 20]⟩ := by
  exact ⟨by decide, by decide⟩

unseal Rat.mul Rat.add Rat.sub Rat.inv in
/-- C2 counterexample: the first `server.js` handler has no sentinel check
in pixel mode; at `x = 1, y = 0` on `[100, 0, 200, 65535]` the raw sample
is the sentinel `0`, yet the response is the numeric temperature `0`
(`tempRaw / 10`) rather than `temperature = null` with a reason. -/
theorem C2_sentinel_counterexample :
    handlerServer1 ⟨true, .str (some 1), .str (some 0),
        .decoded ⟨2, 2, [100, 0, 200, 65535]⟩⟩ =
      .pixelTemp 0 1 0 := by
  decide

unseal Rat.mul Rat.add Rat.sub Rat.inv in
/-- C3 counterexample: the first `server.js` handler also drops the
non-sentinel sample `2000` (200 °C, outside `-50..150`), reporting
`samples = 1` although the input holds 2 non-sentinel samples. -/
theorem C3_count_counterexample :
    handlerServer1 ⟨true, .missing, .missing, .decoded ⟨2, 1, [100, 2000]⟩⟩ =
      .statsOk 2 1 ⟨10, 10, 10, 1, [10]⟩
    ∧ ([100, 2000] : List Nat).countP (fun v => !(v == 0 || v == 65535)) = 2
    ∧ (1 : Nat) ≠ 2 := by
  decide

unseal Rat.mul Rat.add Rat.sub Rat.inv in
/-- C6 counterexample: the `part_002` handler does not fail on
out-of-bounds coordinates; at `x = 5, y = 5` on the 2×2 matrix it returns
the 200-class aggregate response with `pixel = null` instead of a
400-class error. -/
theorem C6_out_of_bounds_counterexample :
    handler002 ⟨true, .str (some 5), .str (some 5),
        .decoded ⟨2, 2, [100, 0, 200, 65535]⟩⟩ =
      .ok 2 2 0 65535 (65835/4) 0 (13107/2) (13167/8) [10, 0, 20, 13107/2] none := by
  decide

unseal Rat.mul Rat.add Rat.sub Rat.inv in
/-- C8 counterexample: in the first `server.js` handler, when both
coordinate fields are present but one does not parse to an integer
(`x = "1"`, `y` a non-numeric string), the request fails with the 400-class
"Invalid coordinates" error instead of entering aggregate mode. -/
theorem C8_single_coordinate_counterexample :
    handlerServer1 ⟨true, .str (some 1), .str none,
        .decoded ⟨2, 2, [100, 0, 200, 65535]⟩⟩ =
      .errInvalidCoordinates := by
  decide

/-- C7: the scale parameter defaults to `0.1` when absent or
(trimmed-)empty; a supplied string is accepted exactly when its `Number`
value is finite and strictly positive; and an invalid scale fails the
request with the 400-class error no matter what the decoder would do
(in particular even when the SDK cannot be loaded, since the validation
runs before the lazy import). -/
theorem C7_scale_validation :
    parseScale .notString = some DEFAULT_SCALE
    ∧ (∀ v, parseScale (.str true v) = some DEFAULT_SCALE)
    ∧ DEFAULT_SCALE = 1/10
    ∧ (∀ q : ℚ, 0 < q → parseScale (.str false (.finite q)) = some q)
    ∧ (∀ q : ℚ, q ≤ 0 → parseScale (.str false (.finite q)) = none)
    ∧ parseScale (.str false .nonFinite) = none
    ∧ (∀ req : Request003, req.hasFile = true →
        parseScale req.scaleField = none → handler003 req = .errInvalidScale) := by
  refine ⟨rfl, fun v => rfl, rfl, ?_, ?_, rfl, ?_⟩
  · intro q hq
    simp [parseScale, not_le.2 hq]
  · intro q hq
    simp [parseScale, hq]
  · intro req h1 h2
    unfold handler003
    rw [h1, h2]
    simp

/-- C1: in pixel mode (both coordinates parsed), with in-bounds
coordinates and a non-sentinel raw sample `r` at row-major index
`y*width + x`, the `part_003`/`part_000` handler returns exactly
`temperature = r * scale` (JS numbers modelled as exact rationals),
echoing `raw`, `scale` and the dimensions. -/
theorem C1_pixel_temperature_exact (req : Request003) (m : ThermalMatrix)
    (scale : ℚ) (x y : Int) (r : Nat)
    (hfile : req.hasFile = true)
    (hscale : parseScale req.scaleField = some scale)
    (hdec : req.decode = .decoded m)
    (hne : m.data.length ≠ 0)
    (hx : parseIntOrNull req.x = some x)
    (hy : parseIntOrNull req.y = some y)
    (hxlo : 0 ≤ x) (hxhi : x < (m.width : Int))
    (hylo : 0 ≤ y) (hyhi : y < (m.height : Int))
    (hr : m.data.getD (y * (m.width : Int) + x).toNat 0 = r)
    (hr0 : r ≠ 0) (hr65535 : r ≠ 65535) :
    handler003 req = .pixelTemp ((r : ℚ) * scale) r scale x y m.width m.height := by
  unfold handler003
  rw [hfile, hscale, hdec, hx, hy, if_neg (by simp)]
  show (if m.data.length = 0 then Result003.errNoThermalData else pixel003 m scale x y) = _
  rw [if_neg hne]
  show pixel003 m scale x y = _
  unfold pixel003
  rw [if_neg (by push_neg; exact ⟨hxlo, hxhi, hylo, hyhi⟩)]
  simp only [hr]
  rw [if_neg (by simp [hr0, hr65535])]

theorem C1_pixel_temperature_exact_witness :
    handler003 ⟨true, .str (some 0), .str (some 1), .notString, false, .int16,
        .decoded ⟨2, 2, [100, 0, 200, 65535]⟩⟩ =
      .pixelTemp 20 200 (1/10) 0 1 2 2 := by
  have h := C1_pixel_temperature_exact
    ⟨true, .str (some 0), .str (some 1), .notString, false, .int16,
      .decoded ⟨2, 2, [100, 0, 200, 65535]⟩⟩
    ⟨2, 2, [100, 0, 200, 65535]⟩ (1/10) 0 1 200
    rfl rfl rfl (by decide) rfl rfl (by decide) (by decide) (by decide) (by decide)
    (by decide) (by decide) (by decide)
  have h200 : ((200 : Nat) : ℚ) * (1/10) = 20 := by norm_num
  rw [h200] at h
  exact h

/-- C2 amended: in the revisions that implement the sentinel branch
(`part_000` first handler, `part_003`), an in-bounds pixel request whose
raw sample is 0 or 65535 yields the `temperature = null` response with
reason "no-data-or-saturated"; the first `server.js` handler instead has no
sentinel check and returns `tempRaw / 10` numerically (counterexample). -/
theorem C2_sentinel_null_amended (req : Request003) (m : ThermalMatrix)
    (scale : ℚ) (x y : Int) (r : Nat)
    (hfile : req.hasFile = true)
    (hscale : parseScale req.scaleField = some scale)
    (hdec : req.decode = .decoded m)
    (hne : m.data.length ≠ 0)
    (hx : parseIntOrNull req.x = some x)
    (hy : parseIntOrNull req.y = some y)
    (hxlo : 0 ≤ x) (hxhi : x < (m.width : Int))
    (hylo : 0 ≤ y) (hyhi : y < (m.height : Int))
    (hr : m.data.getD (y * (m.width : Int) + x).toNat 0 = r)
    (hsent : r = 0 ∨ r = 65535) :
    handler003 req = .pixelNoData x y m.width m.height := by
  unfold handler003
  rw [hfile, hscale, hdec, hx, hy, if_neg (by simp)]
  show (if m.data.length = 0 then Result003.errNoThermalData else pixel003 m scale x y) = _
  rw [if_neg hne]
  show pixel003 m scale x y = _
  unfold pixel003
  rw [if_neg (by push_neg; exact ⟨hxlo, hxhi, hylo, hyhi⟩)]
  simp only [hr]
  rcases hsent with h | h <;> rw [h] <;> rfl

theorem C2_sentinel_null_amended_witness :
    handler003 ⟨true, .str (some 1), .str (some 0), .notString, false, .int16,
        .decoded ⟨2, 2, [100, 0, 200, 65535]⟩⟩ =
      .pixelNoData 1 0 2 2 :=
  C2_sentinel_null_amended
    ⟨true, .str (some 1), .str (some 0), .notString, false, .int16,
      .decoded ⟨2, 2, [100, 0, 200, 65535]⟩⟩
    ⟨2, 2, [100, 0, 200, 65535]⟩ (1/10) 1 0 0
    rfl rfl rfl (by decide) rfl rfl (by decide) (by decide) (by decide) (by decide)
    (by decide) (Or.inl rfl)

/-- C6 amended: in the bounds-checking revisions (`part_000` first handler,
`part_003`, the `server.js` handlers), pixel-mode coordinates outside the
matrix fail with the 400-class "Coordinates out of bounds" error carrying
the matrix's actual width and height and no temperature; the `part_002`
revision instead returns the aggregate response with `pixel = null`
(counterexample). -/
theorem C6_out_of_bounds_amended (req : Request003) (m : ThermalMatrix)
    (scale : ℚ) (x y : Int)
    (hfile : req.hasFile = true)
    (hscale : parseScale req.scaleField = some scale)
    (hdec : req.decode = .decoded m)
    (hne : m.data.length ≠ 0)
    (hx : parseIntOrNull req.x = some x)
    (hy : parseIntOrNull req.y = some y)
    (hout : x < 0 ∨ (m.width : Int) ≤ x ∨ y < 0 ∨ (m.height : Int) ≤ y) :
    handler003 req = .errOutOfBounds m.width m.height := by
  unfold handler003
  rw [hfile, hscale, hdec, hx, hy, if_neg (by simp)]
  show (if m.data.length = 0 then Result003.errNoThermalData else pixel003 m scale x y) = _
  rw [if_neg hne]
  show pixel003 m scale x y = _
  unfold pixel003
  rw [if_pos hout]

theorem C6_out_of_bounds_amended_witness :
    handler003 ⟨true, .str (some 5), .str (some 5), .notString, false, .int16,
        .decoded ⟨2, 2, [100, 0, 200, 65535]⟩⟩ =
      .errOutOfBounds 2 2 :=
  C6_out_of_bounds_amended
    ⟨true, .str (some 5), .str (some 5), .notString, false, .int16,
      .decoded ⟨2, 2, [100, 0, 200, 65535]⟩⟩
    ⟨2, 2, [100, 0, 200, 65535]⟩ (1/10) 5 5
    rfl rfl rfl (by decide) rfl rfl (Or.inr (Or.inl (by decide)))

/-- C8 amended: in `part_000`/`part_003`, whenever either coordinate is
absent or unparseable the request behaves exactly as if no coordinates
were supplied (aggregate mode, no failure); in the first `server.js`
handler a lone present coordinate also falls back to aggregate mode, but a
pair where both fields are present and either fails to parse is rejected
with the 400-class "Invalid coordinates" error (counterexample). -/
theorem C8_single_coordinate_amended :
    (∀ req : Request003,
      parseIntOrNull req.x = none ∨ parseIntOrNull req.y = none →
      handler003 req = handler003 ⟨req.hasFile, .missing, .missing, req.scaleField,
        req.includeRawData, req.format, req.decode⟩)
    ∧ (∀ req : RequestBasic, req.hasFile = true →
        fieldPresent req.x = true → fieldPresent req.y = true →
        fieldParse req.x = none ∨ fieldParse req.y = none →
        handlerServer1 req = .errInvalidCoordinates) := by
  constructor
  · intro req hnone
    unfold handler003
    rcases hnone with h | h
    · rw [h]
      rfl
    · rw [h]
      cases parseIntOrNull req.x <;> rfl
  · intro req h1 h2 h3 h4
    unfold handlerServer1
    rw [h1, if_neg (by simp)]
    show (if (fieldPresent req.x && fieldPresent req.y) = true ∧
        (fieldParse req.x = none ∨ fieldParse req.y = none) then
        ResultServer1.errInvalidCoordinates else _) = _
    rw [if_pos ⟨by simp [h2, h3], h4⟩]

theorem C8_single_coordinate_amended_witness :
    handler003 ⟨true, .str (some 1), .missing, .notString, false, .int16,
        .decoded ⟨2, 2, [100, 0, 200, 65535]⟩⟩
      = handler003 ⟨true, .missing, .missing, .notString, false, .int16,
        .decoded ⟨2, 2, [100, 0, 200, 65535]⟩⟩
    ∧ handlerServer1 ⟨true, .str (some 1), .str none,
        .decoded ⟨2, 2, [100, 0, 200, 65535]⟩⟩
      = .errInvalidCoordinates :=
  ⟨C8_single_coordinate_amended.1
    ⟨true, .str (some 1), .missing, .notString, false, .int16,
      .decoded ⟨2, 2, [100, 0, 200, 65535]⟩⟩ (Or.inr rfl),
   C8_single_coordinate_amended.2
    ⟨true, .str (some 1), .str none, .decoded ⟨2, 2, [100, 0, 200, 65535]⟩⟩
    rfl rfl rfl (Or.inr rfl)⟩

theorem C7_scale_validation_witness :
    handler003 ⟨true, .missing, .missing, .str false (.finite (-1)), false,
        .int16, .unavailable⟩ = .errInvalidScale :=
  C7_scale_validation.2.2.2.2.2.2
    ⟨true, .missing, .missing, .str false (.finite (-1)), false, .int16, .unavailable⟩
    rfl (by decide)

/-- The `part_003` statistics loop counts exactly the non-sentinel samples. -/
theorem statsLoop003_count (l : List Nat) : ∀ acc : Acc003,
    (statsLoop003 acc l).count =
      acc.count + l.countP (fun v => !(v == 0 || v == 65535)) := by
  induction l with
  | nil => intro acc; simp [statsLoop003]
  | cons v rest ih =>
    intro acc
    rw [statsLoop003]
    by_cases hs : (v == 0 || v == 65535) = true
    · rw [if_pos hs, ih, List.countP_cons]
      simp [hs]
    · rw [if_neg hs, ih]
      have hc : (step003 acc v).count = acc.count + 1 := rfl
      have hb : (v == 0 || v == 65535) = false := by simpa using hs
      rw [hc, List.countP_cons]
      simp [hb]
      omega

/-- The Celsius loop of the first `server.js` handler is the composite
filter (non-sentinel AND plausibility range `-50..150`) followed by the
`v / 10` conversion. -/
theorem tempsCLoop_eq (data : List Nat) :
    tempsCLoop data =
      (data.filter (fun (v : Nat) => !(v == 0 || v == 65535) &&
        decide (-50 ≤ (v : ℚ)/10 ∧ (v : ℚ)/10 ≤ 150))).map (fun (v : Nat) => (v : ℚ)/10) := by
  induction data with
  | nil => rfl
  | cons v rest ih =>
    by_cases hs : (v == 0 || v == 65535) = true
    · have hv : v = 0 ∨ v = 65535 := by simpa using hs
      simp only [tempsCLoop, hs, if_true, ih]
      rcases hv with h | h <;> subst h <;> simp [List.filter_cons]
    · by_cases hr : ((v : ℚ)/10 < -50 ∨ 150 < (v : ℚ)/10)
      · have hneg : ¬(-50 ≤ (v : ℚ)/10 ∧ (v : ℚ)/10 ≤ 150) := by
          rcases hr with h | h
          · exact fun hc => absurd hc.1 (not_le.2 h)
          · exact fun hc => absurd hc.2 (not_le.2 h)
        simp [tempsCLoop, hs, hr, hneg, ih]
      · have hpos : (-50 ≤ (v : ℚ)/10 ∧ (v : ℚ)/10 ≤ 150) := by
          push_neg at hr
          exact ⟨not_lt.1 (fun hc => absurd hc (not_lt.2 hr.1)), hr.2⟩
        have h0 : v ≠ 0 := by intro h; subst h; simp at hs
        have h65 : v ≠ 65535 := by intro h; subst h; simp at hs
        have hd1 : decide (-50 ≤ (v : ℚ)/10) = true := decide_eq_true hpos.1
        have hd2 : decide ((v : ℚ)/10 ≤ 150) = true := decide_eq_true hpos.2
        simp [tempsCLoop, hs, hr, ih, List.filter_cons, h0, h65, hd1, hd2]

/-- The `tempsCForStats` loop of the third `server.js` handler is the
composite filter (non-sentinel AND plausibility range `-40..150`) followed
by the `v / 10` conversion. -/
theorem tempsCForStats_eq (data : List Nat) :
    tempsCForStats data =
      (data.filter (fun (v : Nat) => !(v == 0 || v == 65535) &&
        decide (-40 ≤ (v : ℚ)/10 ∧ (v : ℚ)/10 ≤ 150))).map (fun (v : Nat) => (v : ℚ)/10) := by
  induction data with
  | nil => rfl
  | cons v rest ih =>
    by_cases hs : (v == 0 || v == 65535) = true
    · have hv : v = 0 ∨ v = 65535 := by simpa using hs
      simp only [tempsCForStats, hs, if_true, ih]
      rcases hv with h | h <;> subst h <;> simp [List.filter_cons]
    · by_cases hr : ((v : ℚ)/10 < -40 ∨ 150 < (v : ℚ)/10)
      · have hneg : ¬(-40 ≤ (v : ℚ)/10 ∧ (v : ℚ)/10 ≤ 150) := by
          rcases hr with h | h
          · exact fun hc => absurd hc.1 (not_le.2 h)
          · exact fun hc => absurd hc.2 (not_le.2 h)
        simp [tempsCForStats, hs, hr, hneg, ih]
      · have hpos : (-40 ≤ (v : ℚ)/10 ∧ (v : ℚ)/10 ≤ 150) := by
          push_neg at hr
          exact ⟨not_lt.1 (fun hc => absurd hc (not_lt.2 hr.1)), hr.2⟩
        have h0 : v ≠ 0 := by intro h; subst h; simp at hs
        have h65 : v ≠ 65535 := by intro h; subst h; simp at hs
        have hd1 : decide (-40 ≤ (v : ℚ)/10) = true := decide_eq_true hpos.1
        have hd2 : decide ((v : ℚ)/10 ≤ 150) = true := decide_eq_true hpos.2
        simp [tempsCForStats, hs, hr, ih, List.filter_cons, h0, h65, hd1, hd2]

/-- C3 amended: the `part_003` aggregate mode reports `samples` equal to
the number of non-sentinel input samples; the `server.js` revisions
additionally exclude every sample whose converted temperature lies outside
their hard-coded plausibility range, so there `samples` counts only the
values passing both filters (counterexample: `[100, 2000]`). -/
theorem C3_samples_count_amended :
    (∀ (m : ThermalMatrix) (scale : ℚ) (ird : Bool) (fmt : RawFormat)
        (w h : Nat) (stats : StatsBlock) (mp xp : Option (Nat × Nat))
        (st : List ℚ) (pl : Option RawPayload),
        aggregate003 m scale ird fmt = .statsOk w h stats mp xp st pl →
        stats.samples = m.data.countP (fun v => !(v == 0 || v == 65535)))
    ∧ (∀ (data : List Nat) (w h : Nat) (s : PlainCStats),
        statsServer1 data w h = .statsOk w h s →
        s.samples = data.countP (fun (v : Nat) => !(v == 0 || v == 65535) &&
          decide (-50 ≤ (v : ℚ)/10 ∧ (v : ℚ)/10 ≤ 150))) := by
  constructor
  · intro m scale ird fmt w h stats mp xp st pl hagg
    simp only [aggregate003] at hagg
    split at hagg
    · simp at hagg
    · rw [Result003.statsOk.injEq] at hagg
      obtain ⟨-, -, hstats, -, -, -, -⟩ := hagg
      rw [← hstats]
      show (statsLoop003 ⟨none, none, 0, 0⟩ m.data).count = _
      rw [statsLoop003_count]
      simp
  · intro data w h s hs
    simp only [statsServer1] at hs
    split at hs
    · simp at hs
    · rw [ResultServer1.statsOk.injEq] at hs
      obtain ⟨-, -, hstats⟩ := hs
      rw [← hstats]
      show (tempsCLoop data).length = _
      rw [tempsCLoop_eq, List.length_map, ← List.countP_eq_length_filter]

unseal Rat.mul Rat.add Rat.sub Rat.inv in
theorem C3_samples_count_amended_witness :
    (⟨10, 20, 15, 2⟩ : StatsBlock).samples =
      ([100, 0, 200, 65535] : List Nat).countP (fun v => !(v == 0 || v == 65535))
    ∧ (⟨10, 10, 10, 1, [10]⟩ : PlainCStats).samples =
      ([100, 2000] : List Nat).countP (fun (v : Nat) => !(v == 0 || v == 65535) &&
        decide (-50 ≤ (v : ℚ)/10 ∧ (v : ℚ)/10 ≤ 150)) :=
  ⟨C3_samples_count_amended.1 ⟨2, 2, [100, 0, 200, 65535]⟩ (1/10) false .int16 2 2
      ⟨10, 20, 15, 2⟩ (some (0, 0)) (some (0, 1)) [10, 20] none (by decide),
   C3_samples_count_amended.2 [100, 2000] 2 1 ⟨10, 10, 10, 1, [10]⟩ (by decide)⟩

unseal Rat.mul Rat.add Rat.sub Rat.inv in
/-- C10: in both `server.js` statistics revisions the Celsius list feeding
`minC`/`maxC`/`avgC`, the `samples` count and `sampleTempsC` drops every
sentinel AND every non-sentinel sample outside the hard-coded plausibility
range (`-50..150` in the first handler, `-40..150` in the percentile
handler), while the `include_raw_data` full-matrix dump `temperaturesC`
converts every sample unfiltered — concretely, `[100, 2000, 0]` yields
`samples = 1` for statistics but a 3-element dump containing 200 °C. -/
theorem C10_plausibility_filter :
    (∀ data : List Nat, tempsCLoop data =
      (data.filter (fun (v : Nat) => !(v == 0 || v == 65535) &&
        decide (-50 ≤ (v : ℚ)/10 ∧ (v : ℚ)/10 ≤ 150))).map (fun (v : Nat) => (v : ℚ)/10))
    ∧ (∀ data : List Nat, tempsCForStats data =
      (data.filter (fun (v : Nat) => !(v == 0 || v == 65535) &&
        decide (-40 ≤ (v : ℚ)/10 ∧ (v : ℚ)/10 ≤ 150))).map (fun (v : Nat) => (v : ℚ)/10))
    ∧ (∀ data : List Nat, (temperaturesCDump data).length = data.length)
    ∧ handlerServer1 ⟨true, .missing, .missing, .decoded ⟨3, 1, [100, 2000, 0]⟩⟩ =
        .statsOk 3 1 ⟨10, 10, 10, 1, [10]⟩
    ∧ temperaturesCDump [100, 2000, 0] = [10, 200, 0] :=
  ⟨tempsCLoop_eq, tempsCForStats_eq,
   fun data => by simp [temperaturesCDump],
   by decide, by decide⟩

/-- The accumulator invariant holds initially and is preserved by one
non-sentinel iteration of the `part_003` statistics loop. -/
theorem goodAcc_step (acc : Acc003) (v : Nat) (h : GoodAcc acc) :
    GoodAcc (step003 acc v) := by
  obtain ⟨mn, mx, sr, c⟩ := acc
  cases mn with
  | none =>
    cases mx with
    | none =>
      simp only [GoodAcc] at h
      obtain ⟨hc, hs⟩ := h
      subst hc
      subst hs
      simp only [GoodAcc, step003]
      refine ⟨le_refl _, ?_, ?_, Nat.succ_pos _⟩ <;> push_cast <;> norm_num
    | some M => exact h.elim
  | some mn =>
    cases mx with
    | none => exact h.elim
    | some mx =>
      simp only [GoodAcc] at h
      obtain ⟨hmM, hlo, hhi, hc⟩ := h
      have hcq : (0 : ℚ) ≤ (c : ℚ) := Nat.cast_nonneg c
      simp only [step003]
      split_ifs with h1 h2 h2 <;> simp only [GoodAcc] <;> push_cast
      · have hm1 : (v : ℚ) * c ≤ mn * c := mul_le_mul_of_nonneg_right (le_of_lt h1) hcq
        have hm2 : mx * c ≤ (v : ℚ) * c := mul_le_mul_of_nonneg_right (le_of_lt h2) hcq
        refine ⟨le_refl _, ?_, ?_, Nat.succ_pos _⟩ <;> push_cast <;> nlinarith
      · have hm1 : (v : ℚ) * c ≤ mn * c := mul_le_mul_of_nonneg_right (le_of_lt h1) hcq
        have hvM : (v : ℚ) ≤ mx := not_lt.1 h2
        refine ⟨by linarith, ?_, ?_, Nat.succ_pos _⟩ <;> push_cast <;> nlinarith
      · have hmv : mn ≤ (v : ℚ) := not_lt.1 h1
        have hm2 : mx * c ≤ (v : ℚ) * c := mul_le_mul_of_nonneg_right (le_of_lt h2) hcq
        refine ⟨by linarith, ?_, ?_, Nat.succ_pos _⟩ <;> push_cast <;> nlinarith
      · have hmv : mn ≤ (v : ℚ) := not_lt.1 h1
        have hvM : (v : ℚ) ≤ mx := not_lt.1 h2
        refine ⟨hmM, ?_, ?_, Nat.succ_pos _⟩ <;> push_cast <;> nlinarith

/-- The accumulator invariant is preserved by the whole `part_003`
statistics loop. -/
theorem goodAcc_loop (l : List Nat) : ∀ acc, GoodAcc acc →
    GoodAcc (statsLoop003 acc l) := by
  induction l with
  | nil => intro acc h; exact h
  | cons v rest ih =>
    intro acc h
    rw [statsLoop003]
    by_cases hs : (v == 0 || v == 65535) = true
    · rw [if_pos hs]
      exact ih acc h
    · rw [if_neg hs]
      exact ih _ (goodAcc_step acc v h)

/-- The trimmed-mean loop of the percentile handler accumulates exactly
the sum and count of the values within `[a, b]`. -/
theorem trimLoop_eq (a b : ℚ) (l : List ℚ) : ∀ s c,
    trimLoop a b s c l =
      (s + (l.filter (fun t => decide (a ≤ t ∧ t ≤ b))).sum,
       c + (l.filter (fun t => decide (a ≤ t ∧ t ≤ b))).length) := by
  induction l with
  | nil => intro s c; simp [trimLoop]
  | cons t rest ih =>
    intro s c
    rw [trimLoop]
    by_cases h : (t < a ∨ b < t)
    · have hneg : ¬(a ≤ t ∧ t ≤ b) := by
        rcases h with h | h
        · exact fun hc => absurd hc.1 (not_le.2 h)
        · exact fun hc => absurd hc.2 (not_le.2 h)
      rw [if_pos h, ih]
      simp [List.filter_cons, hneg]
    · rw [if_neg h, ih]
      push_neg at h
      have hd : decide (a ≤ t ∧ t ≤ b) = true := decide_eq_true h
      rw [Prod.mk.injEq]
      simp only [List.filter_cons, hd, if_true, List.sum_cons, List.length_cons]
      constructor
      · ring
      · omega

/-- A list whose members all lie in `[a, b]` has its sum between
`a * length` and `b * length`. -/
theorem sum_le_of_forall_le (l : List ℚ) (a b : ℚ)
    (hmem : ∀ t ∈ l, a ≤ t ∧ t ≤ b) :
    a * (l.length : ℚ) ≤ l.sum ∧ l.sum ≤ b * (l.length : ℚ) := by
  induction l with
  | nil => simp
  | cons t rest ih =>
    have ht := hmem t (List.mem_cons_self t rest)
    have ih2 := ih (fun u hu => hmem u (List.mem_cons_of_mem t hu))
    constructor
    · simp only [List.sum_cons, List.length_cons]
      push_cast
      linarith [ih2.1, ht.1]
    · simp only [List.sum_cons, List.length_cons]
      push_cast
      linarith [ih2.2, ht.2]

/-- The mean of a nonempty list lies between any bounds enclosing all its
members. -/
theorem mean_mem_of_bounds (l : List ℚ) (a b : ℚ) (hne : l.length ≠ 0)
    (hmem : ∀ t ∈ l, a ≤ t ∧ t ≤ b) :
    a ≤ l.sum / (l.length : ℚ) ∧ l.sum / (l.length : ℚ) ≤ b := by
  have hlen : (0 : ℚ) < (l.length : ℚ) :=
    Nat.cast_pos.2 (Nat.pos_of_ne_zero hne)
  obtain ⟨h1, h2⟩ := sum_le_of_forall_le l a b hmem
  constructor
  · rw [le_div_iff hlen]
    exact h1
  · rw [div_le_iff hlen]
    exact h2

/-- Indexing a sorted list with `getD` is monotone in the index. -/
theorem sorted_getD_le (l : List ℚ) (hs : List.Sorted (· ≤ ·) l) (i j : Nat)
    (hij : i ≤ j) (hj : j < l.length) : l.getD i 0 ≤ l.getD j 0 := by
  have hi : i < l.length := lt_of_le_of_lt hij hj
  rw [List.getD_eq_get l 0 hi, List.getD_eq_get l 0 hj]
  exact List.Sorted.rel_get_of_le hs hij

/-- An in-bounds `getD` is a member of the list. -/
theorem getD_mem (l : List ℚ) (i : Nat) (h : i < l.length) : l.getD i 0 ∈ l := by
  rw [List.getD_eq_get l 0 h]
  exact l.get_mem i h

/-- The nearest-rank index is monotone in the percentile. -/
theorem pIdx_le_pIdx (q1 q2 : ℚ) (n : Nat) (h12 : q1 ≤ q2) (hn : n ≠ 0) :
    pIdx q1 n ≤ pIdx q2 n := by
  unfold pIdx
  have hnn : (0 : ℚ) ≤ (n : ℚ) - 1 := by
    have h1 : (1 : ℚ) ≤ (n : ℚ) := by
      exact_mod_cast Nat.one_le_iff_ne_zero.2 hn
    linarith
  exact Int.toNat_le_toNat (Int.floor_le_floor (mul_le_mul_of_nonneg_right h12 hnn))

/-- The nearest-rank index of a percentile `q ≤ 1` is in bounds. -/
theorem pIdx_lt (q : ℚ) (n : Nat) (h1 : q ≤ 1) (hn : n ≠ 0) :
    pIdx q n < n := by
  unfold pIdx
  have hnn : (0 : ℚ) ≤ (n : ℚ) - 1 := by
    have hh : (1 : ℚ) ≤ (n : ℚ) := by
      exact_mod_cast Nat.one_le_iff_ne_zero.2 hn
    linarith
  have hfle : ⌊q * ((n : ℚ) - 1)⌋ ≤ (n : ℤ) - 1 := by
    have hcast : ((n : ℚ) - 1) = (((n : ℤ) - 1 : ℤ) : ℚ) := by push_cast; ring
    calc ⌊q * ((n : ℚ) - 1)⌋ ≤ ⌊((n : ℚ) - 1)⌋ :=
          Int.floor_le_floor (by nlinarith)
      _ = (n : ℤ) - 1 := by rw [hcast, Int.floor_intCast]
  omega

/-- The percentile helper returns a member of the (nonempty) sorted list. -/
theorem percentile_mem (sorted : List ℚ) (q : ℚ) (h1 : q ≤ 1)
    (hn : sorted.length ≠ 0) : percentileOf sorted q ∈ sorted := by
  unfold percentileOf
  split_ifs with h
  · exact getD_mem _ _ (Nat.pos_of_ne_zero hn)
  · exact getD_mem _ _ (pIdx_lt q _ h1 hn)

/-- The percentile helper is monotone in the percentile on a sorted list. -/
theorem percentile_mono (sorted : List ℚ) (hs : List.Sorted (· ≤ ·) sorted)
    (hn : sorted.length ≠ 0) (q1 q2 : ℚ) (h12 : q1 ≤ q2) (h2 : q2 ≤ 1) :
    percentileOf sorted q1 ≤ percentileOf sorted q2 := by
  unfold percentileOf
  split_ifs with h
  · exact le_refl _
  · exact sorted_getD_le sorted hs _ _ (pIdx_le_pIdx q1 q2 _ h12 hn)
      (pIdx_lt q2 _ h2 hn)

/-- C4: whenever the reported samples count is positive, the returned
statistics satisfy `minC ≤ avgC ≤ maxC`, both for the plain min/max/mean
variant (`part_003`, whose validated scale is always positive — first
conjunct) and for the percentile-trimmed variant (third `server.js`
handler). -/
theorem C4_stats_ordered :
    (∀ (q : ℚ) (f : ScaleField), parseScale f = some q → 0 < q)
    ∧ (∀ (m : ThermalMatrix) (scale : ℚ) (ird : Bool) (fmt : RawFormat)
        (w h : Nat) (stats : StatsBlock) (mp xp : Option (Nat × Nat))
        (st : List ℚ) (pl : Option RawPayload),
        0 < scale →
        aggregate003 m scale ird fmt = .statsOk w h stats mp xp st pl →
        0 < stats.samples →
        stats.minC ≤ stats.avgC ∧ stats.avgC ≤ stats.maxC)
    ∧ (∀ (data : List Nat) (s : TrimmedStats),
        statsTrimmed data = some s → 0 < s.samples →
        s.minC ≤ s.avgC ∧ s.avgC ≤ s.maxC) := by
  refine ⟨?_, ?_, ?_⟩
  · intro q f h
    cases f with
    | notString =>
      simp only [parseScale, Option.some.injEq] at h
      rw [← h]
      norm_num [DEFAULT_SCALE]
    | str te v =>
      cases te with
      | true =>
        simp only [parseScale, Option.some.injEq] at h
        rw [← h]
        norm_num [DEFAULT_SCALE]
      | false =>
        cases v with
        | nonFinite => simp [parseScale] at h
        | finite qq =>
          simp only [parseScale] at h
          split_ifs at h with hq
          exact (Option.some.inj h) ▸ not_le.1 hq
  · intro m scale ird fmt w h stats mp xp st pl hscale hagg hpos0
    simp only [aggregate003] at hagg
    split at hagg
    · simp at hagg
    · rename_i hcnt
      rw [Result003.statsOk.injEq] at hagg
      obtain ⟨-, -, hstats, -, -, -, -⟩ := hagg
      subst hstats
      have hgood : GoodAcc (statsLoop003 ⟨none, none, 0, 0⟩ m.data) :=
        goodAcc_loop m.data _ ⟨rfl, rfl⟩
      have hc0 : (statsLoop003 ⟨none, none, 0, 0⟩ m.data).count ≠ 0 := by
        simpa using hcnt
      cases hmn : (statsLoop003 ⟨none, none, 0, 0⟩ m.data).minRaw with
      | none =>
        cases hmx : (statsLoop003 ⟨none, none, 0, 0⟩ m.data).maxRaw with
        | none =>
          rw [GoodAcc, hmn, hmx] at hgood
          exact absurd hgood.1 hc0
        | some mx =>
          rw [GoodAcc, hmn, hmx] at hgood
          exact hgood.elim
      | some mn =>
        cases hmx : (statsLoop003 ⟨none, none, 0, 0⟩ m.data).maxRaw with
        | none =>
          rw [GoodAcc, hmn, hmx] at hgood
          exact hgood.elim
        | some mx =>
          rw [GoodAcc, hmn, hmx] at hgood
          obtain ⟨hmM, hlo, hhi, hcpos⟩ := hgood
          have hcq : (0 : ℚ) < ((statsLoop003 ⟨none, none, 0, 0⟩ m.data).count : ℚ) :=
            Nat.cast_pos.2 hcpos
          simp only [mkStats003, hmn, hmx, Option.getD_some]
          constructor
          · refine mul_le_mul_of_nonneg_right ?_ hscale.le
            rw [le_div_iff hcq]
            exact hlo
          · refine mul_le_mul_of_nonneg_right ?_ hscale.le
            rw [div_le_iff hcq]
            exact hhi
  · intro data s hsome hpos0
    simp only [statsTrimmed] at hsome
    split at hsome
    · simp at hsome
    · rename_i hne0
      rw [Option.some.injEq] at hsome
      subst hsome
      have hsorted : List.Sorted (· ≤ ·)
          (List.insertionSort (· ≤ ·) (tempsCForStats data)) :=
        List.sorted_insertionSort _ _
      have hn : (List.insertionSort (· ≤ ·) (tempsCForStats data)).length ≠ 0 := by
        simpa using hne0
      have hq : percentileOf (List.insertionSort (· ≤ ·) (tempsCForStats data)) (5/100) ≤
          percentileOf (List.insertionSort (· ≤ ·) (tempsCForStats data)) (99/100) :=
        percentile_mono _ hsorted hn (5/100) (99/100) (by norm_num) (by norm_num)
      have hminmem := percentile_mem
        (List.insertionSort (· ≤ ·) (tempsCForStats data)) (5/100) (by norm_num) hn
      have hminF : percentileOf (List.insertionSort (· ≤ ·) (tempsCForStats data)) (5/100) ∈
          (List.insertionSort (· ≤ ·) (tempsCForStats data)).filter
            (fun t => decide
              (percentileOf (List.insertionSort (· ≤ ·) (tempsCForStats data)) (5/100) ≤ t ∧
               t ≤ percentileOf (List.insertionSort (· ≤ ·) (tempsCForStats data)) (99/100))) :=
        List.mem_filter.2 ⟨hminmem, decide_eq_true ⟨le_refl _, hq⟩⟩
      have hFne : ((List.insertionSort (· ≤ ·) (tempsCForStats data)).filter
            (fun t => decide
              (percentileOf (List.insertionSort (· ≤ ·) (tempsCForStats data)) (5/100) ≤ t ∧
               t ≤ percentileOf (List.insertionSort (· ≤ ·) (tempsCForStats data)) (99/100)))).length ≠ 0 := by
        intro h0
        rw [List.length_eq_zero] at h0
        rw [h0] at hminF
        exact absurd hminF (List.not_mem_nil _)
      have hmem : ∀ t ∈ (List.insertionSort (· ≤ ·) (tempsCForStats data)).filter
            (fun t => decide
              (percentileOf (List.insertionSort (· ≤ ·) (tempsCForStats data)) (5/100) ≤ t ∧
               t ≤ percentileOf (List.insertionSort (· ≤ ·) (tempsCForStats data)) (99/100))),
          percentileOf (List.insertionSort (· ≤ ·) (tempsCForStats data)) (5/100) ≤ t ∧
            t ≤ percentileOf (List.insertionSort (· ≤ ·) (tempsCForStats data)) (99/100) :=
        fun t ht => of_decide_eq_true (List.mem_filter.1 ht).2
      have hmean := mean_mem_of_bounds _ _ _ hFne hmem
      rw [trimLoop_eq]
      simp only [zero_add]
      exact ⟨hmean.1, hmean.2⟩

unseal Rat.mul Rat.add Rat.sub Rat.inv in
theorem C4_stats_ordered_witness :
    (0 : ℚ) < DEFAULT_SCALE
    ∧ ((⟨10, 20, 15, 2⟩ : StatsBlock).minC ≤ (⟨10, 20, 15, 2⟩ : StatsBlock).avgC
       ∧ (⟨10, 20, 15, 2⟩ : StatsBlock).avgC ≤ (⟨10, 20, 15, 2⟩ : StatsBlock).maxC)
    ∧ ((⟨10, 10, 10, 2, 1, [10, 20]⟩ : TrimmedStats).minC ≤
          (⟨10, 10, 10, 2, 1, [10, 20]⟩ : TrimmedStats).avgC
       ∧ (⟨10, 10, 10, 2, 1, [10, 20]⟩ : TrimmedStats).avgC ≤
          (⟨10, 10, 10, 2, 1, [10, 20]⟩ : TrimmedStats).maxC) :=
  ⟨C4_stats_ordered.1 DEFAULT_SCALE .notString rfl,
   C4_stats_ordered.2.1 ⟨2, 2, [100, 0, 200, 65535]⟩ (1/10) false .int16 2 2
     ⟨10, 20, 15, 2⟩ (some (0, 0)) (some (0, 1)) [10, 20] none
     (by norm_num) (by decide) (by decide),
   C4_stats_ordered.2.2 [100, 0, 200, 65535] ⟨10, 10, 10, 2, 1, [10, 20]⟩
     (by decide) (by decide)⟩

end Mosquito
